import Mathlib

/-!
Shallow embedding of `measurement-control-drivers` (Python) in Lean 4.

Instrument replies and commands are strings; numeric values the Python code
handles as floats are modelled exactly over `ℚ` (the code performs only
linear arithmetic on them).  Device I/O is modelled by oracles: a `Device`
maps a command string to the reply (or error) the instrument would produce,
and stateful methods return the trace of I/O events they issue together with
their outcome (`Except` models Python exceptions).
-/

deriving instance DecidableEq for Except

namespace MCD

/-- `SpectrumAnalyzer.get_frequency_axis`, given the values read back from the
instrument (`f_start`, `f_stop` from `get_start_stop`, `points` from
`SWE:POIN?`): if `points < 2` return `[f_start]`, else return
`[f_start + i * step for i in range(points)]` with
`step = (f_stop - f_start) / (points - 1)`. -/
def get_frequency_axis (f_start f_stop : ℚ) (points : ℤ) : List ℚ :=
  if points < 2 then [f_start]
  else
    (List.range points.toNat).map
      (fun i : ℕ => f_start + (i : ℚ) * ((f_stop - f_start) / ((points : ℚ) - 1)))

/-- `SpectrumAnalyzer._try_write_any` / `_try_query_any`, generic in the result
type of one attempt: try each candidate in order, remembering the last error
(`last_err` in the Python).  The first component is the list of commands
actually attempted; `Except.error (some e)` models re-raising the last
observed error `e`, and `Except.error none` models the
`RuntimeError("No SCPI variant worked")` raised when no candidate was ever
attempted. -/
def tryAnyGo {α : Type} (attempt : String → Except String α) :
    List String → Option String → List String × Except (Option String) α
  | [], last => ([], Except.error last)
  | c :: cs, last =>
    match attempt c with
    | Except.ok a => ([c], Except.ok a)
    | Except.error e =>
      let r := tryAnyGo attempt cs (some e)
      (c :: r.1, r.2)

/-- `_try_write_any` (`α = Unit`) and `_try_query_any` (`α = String`) both
start with `last_err = None`. -/
def tryAnyCmds {α : Type} (attempt : String → Except String α) (cmds : List String) :
    List String × Except (Option String) α :=
  tryAnyGo attempt cmds none

/-- Python `str.startswith(prefix)`: `prefix` is a prefix of the string. -/
def pyStartsWith (s pre : String) : Bool :=
  pre.data.isPrefixOf s.data

/-- Python whitespace, as stripped by `str.strip()` and tolerated by
`float()`. -/
def pyIsSpace (c : Char) : Bool :=
  c == ' ' || c == '\t' || c == '\n' || c == '\r' || c == '\x0b' || c == '\x0c'

/-- Python `str.strip()` on the character list of a string. -/
def pyStripList (cs : List Char) : List Char :=
  ((cs.dropWhile pyIsSpace).reverse.dropWhile pyIsSpace).reverse

/-- Python `str.strip()`. -/
def pyStrip (s : String) : String :=
  ⟨pyStripList s.data⟩

/-- Loop body of `check_errors` (both `SpectrumAnalyzer.check_errors` and
`VNA.check_errors`): `replies i` is the reply the device gives to the
`(i+1)`-th `SYST:ERR?` query; each iteration appends the stripped reply and
breaks when the raw reply starts with `"0"`; `n` is the remaining iteration
budget of `for _ in range(max_reads)`. -/
def check_errors_go (replies : ℕ → String) : ℕ → ℕ → List String
  | _, 0 => []
  | i, n + 1 =>
    let err := replies i
    if pyStartsWith err "0" then [pyStrip err]
    else pyStrip err :: check_errors_go replies (i + 1) n

/-- `check_errors(max_reads)`; the `SpectrumAnalyzer` version takes
`max_reads` (default 20) as a parameter, the `VNA` version fixes 20. -/
def check_errors (replies : ℕ → String) (max_reads : ℕ) : List String :=
  check_errors_go replies 0 max_reads

/-- Python `str.split(sep)` for a one-character separator: `"".split(',')`
is `[""]`, and every occurrence of the separator opens a new (possibly
empty) field. -/
def splitOnChar (sep : Char) : List Char → List (List Char)
  | [] => [[]]
  | c :: rest =>
    let r := splitOnChar sep rest
    if c = sep then [] :: r
    else
      match r with
      | [] => [[c]]
      | g :: gs => (c :: g) :: gs

/-- Python `str.replace(old, new)` for one-character patterns. -/
def replaceChar (old new : Char) (cs : List Char) : List Char :=
  cs.map (fun c => if c = old then new else c)

/-- Numeric value of a run of decimal digit characters. -/
def digitsVal (ds : List Char) : ℕ :=
  ds.foldl (fun a c => 10 * a + (c.toNat - 48)) 0

/-- Python `float(s)` restricted to finite decimal literals, the only form the
drivers ever receive: optional surrounding whitespace, optional sign, integer
and/or fractional digits, optional exponent.  `none` is the `ValueError`
Python raises on any other text (such as `"abc"` or `""`). -/
def parsePyFloat? (s : String) : Option ℚ :=
  let cs := pyStripList s.data
  let sgncs : ℤ × List Char :=
    match cs with
    | '-' :: rest => (-1, rest)
    | '+' :: rest => (1, rest)
    | _ => (1, cs)
  let sgn := sgncs.1
  let cs1 := sgncs.2
  let ip := cs1.takeWhile Char.isDigit
  let cs2 := cs1.dropWhile Char.isDigit
  let fpcs : List Char × List Char :=
    match cs2 with
    | '.' :: rest => (rest.takeWhile Char.isDigit, rest.dropWhile Char.isDigit)
    | _ => ([], cs2)
  let fp := fpcs.1
  let cs3 := fpcs.2
  if ip.isEmpty && fp.isEmpty then none
  else
    let num : ℤ := sgn * ((digitsVal ip : ℤ) * 10 ^ fp.length + (digitsVal fp : ℤ))
    let den : ℕ := 10 ^ fp.length
    match cs3 with
    | [] => some (mkRat num den)
    | e :: rest =>
      if e = 'e' || e = 'E' then
        let esgnrest : Bool × List Char :=
          match rest with
          | '-' :: r => (true, r)
          | '+' :: r => (false, r)
          | _ => (false, rest)
        let eneg := esgnrest.1
        let rest1 := esgnrest.2
        let ed := rest1.takeWhile Char.isDigit
        let rest2 := rest1.dropWhile Char.isDigit
        if ed.isEmpty || !rest2.isEmpty then none
        else if eneg then some (mkRat num (den * 10 ^ digitsVal ed))
        else some (mkRat (num * (10 : ℤ) ^ digitsVal ed) den)
      else none

/-- First parse stage of `SpectrumAnalyzer.fetch_trace`:
`parts = data_str.replace('\n', ',').replace(';', ',').split(',')`, then for
each part strip it, skip it when empty, append `float(p)`, and skip the part
when `float` raises `ValueError`. -/
def fetch_trace_parse1 (data_str : String) : List ℚ :=
  let parts := splitOnChar ',' (replaceChar ';' ',' (replaceChar '\n' ',' data_str.data))
  parts.filterMap (fun p0 =>
    let p := pyStripList p0
    if p.isEmpty then none
    else parsePyFloat? ⟨p⟩)

/-- Evaluation of a `[float(x) for x in xs]` comprehension: stops with the
`ValueError` (`none`) of the first token `float` rejects. -/
def floatMapStrict : List (List Char) → Option (List ℚ)
  | [] => some []
  | x :: xs =>
    match parsePyFloat? ⟨x⟩ with
    | none => none
    | some v =>
      match floatMapStrict xs with
      | none => none
      | some vs => some (v :: vs)

/-- Retry parse stage of `SpectrumAnalyzer.fetch_trace` (after forcing ASCII
format): `[float(x) for x in data_str.replace('\n', ',').split(',') if
x.strip()]`.  A `ValueError` from `float` now propagates (`none`): unlike the
first stage, semicolons are not replaced and bad tokens are not skipped. -/
def fetch_trace_parse2 (data_str : String) : Option (List ℚ) :=
  let xs := (splitOnChar ',' (replaceChar '\n' ',' data_str.data)).filter
    (fun x => !(pyStripList x).isEmpty)
  floatMapStrict xs

/-- One I/O event on the VISA session: a write or a query of one command. -/
inductive Vevent : Type
  | wr (cmd : String)
  | qu (cmd : String)
deriving DecidableEq

/-- Oracle model of the instrument behind `self.write` / `self.query` (the
`VisaIOError` of a failing transfer is already wrapped into a `RuntimeError`
message by those helpers): the device's reaction is a function of the
command sent. -/
structure Device : Type where
  writeR : String → Except String Unit
  queryR : String → Except String String

/-- Message of the exception the resolver ends with
(`raise last_err if last_err else RuntimeError("No SCPI variant worked")`). -/
def optErr : Option String → String
  | none => "No SCPI variant worked"
  | some e => e

/-- `self._try_query_any(cmds)` together with its trace of issued queries. -/
def tryQueryAnyT (d : Device) (cmds : List String) : List Vevent × Except String String :=
  let r := tryAnyCmds d.queryR cmds
  (r.1.map Vevent.qu, r.2.mapError optErr)

/-- `self._try_write_any(cmds)` together with its trace of issued writes. -/
def tryWriteAnyT (d : Device) (cmds : List String) : List Vevent × Except String Unit :=
  let r := tryAnyCmds d.writeR cmds
  (r.1.map Vevent.wr, r.2.mapError optErr)

/-- Python `float(reply)` applied to a query reply: `ValueError` when the
reply is not a float literal. -/
def floatE (s : String) : Except String ℚ :=
  match parsePyFloat? s with
  | some v => Except.ok v
  | none => Except.error ("ValueError: could not convert string to float: " ++ s)

/-- Rendering of a numeric argument into command text (Python f-string
interpolation).  The exact decimal spelling of a float is irrelevant to every
claim, so the canonical rational rendering stands in for Python's float
formatting; integers render identically to Python. -/
def pyNumStr (q : ℚ) : String :=
  toString q

/-- `SpectrumAnalyzer.get_start_stop`: the start then the stop frequency,
each read through `_try_query_any` and parsed with `float`. -/
def sa_get_start_stop (d : Device) : List Vevent × Except String (ℚ × ℚ) :=
  let q1 := tryQueryAnyT d ["FREQ:STAR?", "SENS:FREQ:STAR?"]
  match q1.2 with
  | Except.error e => (q1.1, Except.error e)
  | Except.ok s1 =>
    match floatE s1 with
    | Except.error e => (q1.1, Except.error e)
    | Except.ok f_start =>
      let q2 := tryQueryAnyT d ["FREQ:STOP?", "SENS:FREQ:STOP?"]
      match q2.2 with
      | Except.error e => (q1.1 ++ q2.1, Except.error e)
      | Except.ok s2 =>
        match floatE s2 with
        | Except.error e => (q1.1 ++ q2.1, Except.error e)
        | Except.ok f_stop => (q1.1 ++ q2.1, Except.ok (f_start, f_stop))

/-- `SpectrumAnalyzer.set_marker_x`: read the span via `get_start_stop`,
raise a `ValueError` when the frequency lies outside `[f_start, f_stop]`,
otherwise write the marker-position command via `_try_write_any`. -/
def sa_set_marker_x (d : Device) (idx : ℤ) (freq_hz : ℚ) :
    List Vevent × Except String Unit :=
  let g := sa_get_start_stop d
  match g.2 with
  | Except.error e => (g.1, Except.error e)
  | Except.ok (f_start, f_stop) =>
    if f_start ≤ freq_hz ∧ freq_hz ≤ f_stop then
      let w := tryWriteAnyT d
        ["CALC:MARK" ++ toString idx ++ ":X " ++ pyNumStr freq_hz,
         "CALC:MARKER" ++ toString idx ++ ":X " ++ pyNumStr freq_hz]
      (g.1 ++ w.1, w.2)
    else
      (g.1, Except.error "ValueError: Frecuencia fuera de span")

/-- `VNA.set_marker_x`: read start and stop with two direct queries, raise a
`ValueError` when the frequency lies outside the sweep, otherwise write the
marker-position command. -/
def vna_set_marker_x (d : Device) (idx : ℤ) (freq_hz : ℚ) :
    List Vevent × Except String Unit :=
  match d.queryR "SENS:FREQ:STAR?" with
  | Except.error e => ([Vevent.qu "SENS:FREQ:STAR?"], Except.error e)
  | Except.ok s1 =>
    match floatE s1 with
    | Except.error e => ([Vevent.qu "SENS:FREQ:STAR?"], Except.error e)
    | Except.ok f_start =>
      match d.queryR "SENS:FREQ:STOP?" with
      | Except.error e =>
        ([Vevent.qu "SENS:FREQ:STAR?", Vevent.qu "SENS:FREQ:STOP?"], Except.error e)
      | Except.ok s2 =>
        match floatE s2 with
        | Except.error e =>
          ([Vevent.qu "SENS:FREQ:STAR?", Vevent.qu "SENS:FREQ:STOP?"], Except.error e)
        | Except.ok f_stop =>
          if f_start ≤ freq_hz ∧ freq_hz ≤ f_stop then
            let wcmd := "CALC:MARK" ++ toString idx ++ ":X " ++ pyNumStr freq_hz
            match d.writeR wcmd with
            | Except.error e =>
              ([Vevent.qu "SENS:FREQ:STAR?", Vevent.qu "SENS:FREQ:STOP?", Vevent.wr wcmd],
               Except.error e)
            | Except.ok _ =>
              ([Vevent.qu "SENS:FREQ:STAR?", Vevent.qu "SENS:FREQ:STOP?", Vevent.wr wcmd],
               Except.ok ())
          else
            ([Vevent.qu "SENS:FREQ:STAR?", Vevent.qu "SENS:FREQ:STOP?"],
             Except.error "ValueError: Frecuencia fuera del sweep")

/-- `SpectrumAnalyzer.set_span`: the `stop_hz <= start_hz` validation comes
first, before any command is sent; then start, stop and point-count are
written through `_try_write_any`. -/
def sa_set_span (d : Device) (start_hz stop_hz : ℚ) (points : ℤ) :
    List Vevent × Except String Unit :=
  if stop_hz ≤ start_hz then
    ([], Except.error "ValueError: stop_hz debe ser mayor que start_hz")
  else
    let w1 := tryWriteAnyT d
      ["FREQ:STAR " ++ pyNumStr start_hz, "SENS:FREQ:STAR " ++ pyNumStr start_hz]
    match w1.2 with
    | Except.error e => (w1.1, Except.error e)
    | Except.ok _ =>
      let w2 := tryWriteAnyT d
        ["FREQ:STOP " ++ pyNumStr stop_hz, "SENS:FREQ:STOP " ++ pyNumStr stop_hz]
      match w2.2 with
      | Except.error e => (w1.1 ++ w2.1, Except.error e)
      | Except.ok _ =>
        let w3 := tryWriteAnyT d
          ["SWE:POIN " ++ toString points, "SENS:SWE:POIN " ++ toString points]
        (w1.1 ++ w2.1 ++ w3.1, w3.2)

/-- `VNA.set_span`: the `stop_freq <= start_freq` validation comes first,
before any command is sent; then start, stop and point-count are written
directly. -/
def vna_set_span (d : Device) (start_freq stop_freq : ℚ) (points : ℤ) :
    List Vevent × Except String Unit :=
  if stop_freq ≤ start_freq then
    ([], Except.error "ValueError: Stop frequency must be greater than start frequency")
  else
    let c1 := "SENS:FREQ:STAR " ++ pyNumStr start_freq
    match d.writeR c1 with
    | Except.error e => ([Vevent.wr c1], Except.error e)
    | Except.ok _ =>
      let c2 := "SENS:FREQ:STOP " ++ pyNumStr stop_freq
      match d.writeR c2 with
      | Except.error e => ([Vevent.wr c1, Vevent.wr c2], Except.error e)
      | Except.ok _ =>
        let c3 := "SENS:SWE:POIN " ++ toString points
        match d.writeR c3 with
        | Except.error e => ([Vevent.wr c1, Vevent.wr c2, Vevent.wr c3], Except.error e)
        | Except.ok _ => ([Vevent.wr c1, Vevent.wr c2, Vevent.wr c3], Except.ok ())

/-- `SpectrumAnalyzer.get_marker_xy`: the marker's X then Y reading, each
through `_try_query_any` and `float`. -/
def sa_get_marker_xy (d : Device) (idx : ℤ) : List Vevent × Except String (ℚ × ℚ) :=
  let q1 := tryQueryAnyT d
    ["CALC:MARK" ++ toString idx ++ ":X?", "CALC:MARKER" ++ toString idx ++ ":X?"]
  match q1.2 with
  | Except.error e => (q1.1, Except.error e)
  | Except.ok s1 =>
    match floatE s1 with
    | Except.error e => (q1.1, Except.error e)
    | Except.ok x =>
      let q2 := tryQueryAnyT d
        ["CALC:MARK" ++ toString idx ++ ":Y?", "CALC:MARKER" ++ toString idx ++ ":Y?"]
      match q2.2 with
      | Except.error e => (q1.1 ++ q2.1, Except.error e)
      | Except.ok s2 =>
        match floatE s2 with
        | Except.error e => (q1.1 ++ q2.1, Except.error e)
        | Except.ok y => (q1.1 ++ q2.1, Except.ok (x, y))

/-- The `try:` block of `get_delta_reading`: the direct delta readings,
X then Y, each through `_try_query_any` and `float`. -/
def sa_delta_direct (d : Device) (del_idx : ℤ) : List Vevent × Except String (ℚ × ℚ) :=
  let q1 := tryQueryAnyT d
    ["CALC:MARK" ++ toString del_idx ++ ":DELT:X?",
     "CALC:MARKER" ++ toString del_idx ++ ":DELTA:X?"]
  match q1.2 with
  | Except.error e => (q1.1, Except.error e)
  | Except.ok s1 =>
    match floatE s1 with
    | Except.error e => (q1.1, Except.error e)
    | Except.ok df =>
      let q2 := tryQueryAnyT d
        ["CALC:MARK" ++ toString del_idx ++ ":DELT:Y?",
         "CALC:MARKER" ++ toString del_idx ++ ":DELTA:Y?"]
      match q2.2 with
      | Except.error e => (q1.1 ++ q2.1, Except.error e)
      | Except.ok s2 =>
        match floatE s2 with
        | Except.error e => (q1.1 ++ q2.1, Except.error e)
        | Except.ok da => (q1.1 ++ q2.1, Except.ok (df, da))

/-- `SpectrumAnalyzer.get_delta_reading`: try the direct delta reading; on
any exception fall back to `(x2 - x1, y2 - y1)` computed from the reference
marker's and the delta marker's own X/Y readings, in that order. -/
def sa_get_delta_reading (d : Device) (ref_idx del_idx : ℤ) :
    List Vevent × Except String (ℚ × ℚ) :=
  let t := sa_delta_direct d del_idx
  match t.2 with
  | Except.ok p => (t.1, Except.ok p)
  | Except.error _ =>
    let m1 := sa_get_marker_xy d ref_idx
    match m1.2 with
    | Except.error e => (t.1 ++ m1.1, Except.error e)
    | Except.ok (x1, y1) =>
      let m2 := sa_get_marker_xy d del_idx
      match m2.2 with
      | Except.error e => (t.1 ++ m1.1 ++ m2.1, Except.error e)
      | Except.ok (x2, y2) => (t.1 ++ m1.1 ++ m2.1, Except.ok (x2 - x1, y2 - y1))

/-- A command of `AWG_Rigol_DG922Pro.set_sin`, represented structurally
(`:SOUR{ch}:APPL:SIN {freq},{amp},{off}` and `:SOUR{ch}:PHAS {phase}`); the
decimal spelling of the arguments is irrelevant to the claims. -/
inductive AwgCmd : Type
  | applSin (channel : ℤ) (frequency amplitude offset : ℚ)
  | phas (channel : ℤ) (phase : ℚ)
deriving DecidableEq

/-- `AWG_Rigol_DG922Pro.set_sin`: an amplitude below the instrument minimum
`0.001` is clamped to `0.001` and a notice is printed; the sine command is
then written unconditionally, and the phase command follows when the phase is
nonzero.  The function contains no `raise`: the result is the list of
commands written and the list of console messages printed. -/
def awg_set_sin (channel : ℤ) (frequency amplitude offset phase : ℚ) :
    List AwgCmd × List String :=
  let clamped := amplitude < mkRat 1 1000
  let amp := if clamped then mkRat 1 1000 else amplitude
  let msgs := if clamped then
      ["Amplitude below minimum (0.001). Setting it to 0.001."]
    else []
  let writes := [AwgCmd.applSin channel frequency amp offset]
    ++ (if phase ≠ 0 then [AwgCmd.phas channel phase] else [])
  (writes, msgs)

/-- A pyvisa-style write on a session handle whose state is `closed`:
pyvisa raises `InvalidSession` when an operation reaches a closed resource.
Returns the (unchanged) session state. -/
def pvWrite (closed : Bool) : Except String Bool :=
  if closed then Except.error "InvalidSession" else Except.ok closed

/-- A pyvisa-style `Resource.close()`: raises `InvalidSession` on a resource
that is already closed, otherwise leaves the session closed. -/
def pvClose (closed : Bool) : Except String Bool :=
  if closed then Except.error "InvalidSession" else Except.ok true

/-- `AnaPico_sin20G.close`: `enable_output(False)` (the write `:OUTP OFF`)
and then `self.inst.close()`, with no exception handling around either;
the result is the commands that reached the instrument and the final session
state, or the exception raised. -/
def anapico_close (closed : Bool) : List String × Except String Bool :=
  match pvWrite closed with
  | Except.error e => ([], Except.error e)
  | Except.ok c1 =>
    match pvClose c1 with
    | Except.error e => ([":OUTP OFF"], Except.error e)
    | Except.ok c2 => ([":OUTP OFF"], Except.ok c2)

/-- `AWG_Rigol_DG922Pro.close`: `enable_output(1, False)`,
`enable_output(2, False)`, then `self.inst.close()`, with no exception
handling around any of the three. -/
def awg_close (closed : Bool) : List String × Except String Bool :=
  match pvWrite closed with
  | Except.error e => ([], Except.error e)
  | Except.ok c1 =>
    match pvWrite c1 with
    | Except.error e => ([":OUTP1 OFF"], Except.error e)
    | Except.ok c2 =>
      match pvClose c2 with
      | Except.error e => ([":OUTP1 OFF", ":OUTP2 OFF"], Except.error e)
      | Except.ok c3 => ([":OUTP1 OFF", ":OUTP2 OFF"], Except.ok c3)

/-- `SpectrumAnalyzer.close` (the `VNA.close` body is identical):
`try: self.sa.close() finally: try: self.rm.close() except: pass` — only the
resource-manager close is guarded, so modelling the resource manager's close
as the swallowed part, the session close's own exception still propagates. -/
def sa_close (closed : Bool) : Except String Bool :=
  pvClose closed

end MCD

open MCD

/-- C1: for `stop > start` and `points ≥ 2` the reconstructed axis has exactly
`points` entries, is strictly increasing, starts at `start`, ends at `stop`,
and entry `i` equals `start + i*(stop-start)/(points-1)`. -/
theorem c1_frequency_axis (f_start f_stop : ℚ) (points : ℤ)
    (hlt : f_start < f_stop) (hp : 2 ≤ points) :
    (get_frequency_axis f_start f_stop points).length = points.toNat ∧
    List.Pairwise (· < ·) (get_frequency_axis f_start f_stop points) ∧
    (get_frequency_axis f_start f_stop points).head? = some f_start ∧
    (get_frequency_axis f_start f_stop points).getLast? = some f_stop ∧
    ∀ i : ℕ, i < points.toNat →
      (get_frequency_axis f_start f_stop points).get? i =
        some (f_start + (i : ℚ) * ((f_stop - f_start) / ((points : ℚ) - 1))) := by
  have hnotlt : ¬ points < 2 := not_lt.mpr hp
  set step : ℚ := (f_stop - f_start) / ((points : ℚ) - 1) with hstepdef
  have hax : get_frequency_axis f_start f_stop points =
      (List.range points.toNat).map (fun i : ℕ => f_start + (i : ℚ) * step) := by
    rw [get_frequency_axis, if_neg hnotlt]
  have hpQ : (2 : ℚ) ≤ (points : ℚ) := by exact_mod_cast hp
  have hden : (0 : ℚ) < (points : ℚ) - 1 := by linarith
  have hstep : (0 : ℚ) < step := div_pos (by linarith) hden
  have hn2 : 2 ≤ points.toNat := by omega
  have hlen : (get_frequency_axis f_start f_stop points).length = points.toNat := by
    rw [hax, List.length_map, List.length_range]
  have hget : ∀ i : ℕ, i < points.toNat →
      (get_frequency_axis f_start f_stop points).get? i =
        some (f_start + (i : ℚ) * step) := by
    intro i hi
    rw [hax, List.get?_map, List.get?_range hi]
    rfl
  refine ⟨hlen, ?_, ?_, ?_, hget⟩
  · rw [hax, List.pairwise_map]
    exact (List.pairwise_lt_range points.toNat).imp (fun {a b} hab => by
      have hc : (a : ℚ) < (b : ℚ) := by exact_mod_cast hab
      have := mul_lt_mul_of_pos_right hc hstep
      linarith)
  · obtain ⟨m, hm⟩ : ∃ m, points.toNat = m + 1 := ⟨points.toNat - 1, by omega⟩
    rw [hax, hm, List.range_succ_eq_map]
    simp
  · have hne1 : 1 ≤ points.toNat := by omega
    have htn : ((points.toNat : ℚ)) = (points : ℚ) := by
      exact_mod_cast congrArg (Int.cast : ℤ → ℚ) (Int.toNat_of_nonneg (by omega : (0:ℤ) ≤ points))
    have hcast : ((points.toNat - 1 : ℕ) : ℚ) = (points : ℚ) - 1 := by
      rw [Nat.cast_sub hne1, htn, Nat.cast_one]
    have hlast : f_start + ((points : ℚ) - 1) * step = f_stop := by
      rw [hstepdef, mul_comm, div_mul_cancel₀ _ (ne_of_gt hden)]
      ring
    rw [List.getLast?_eq_get?, hlen, hget (points.toNat - 1) (by omega), hcast, hlast]

/-- Witness for C1 at `start = 0`, `stop = 1`, `points = 2`. -/
theorem c1_frequency_axis_witness :
    (get_frequency_axis 0 1 2).length = (2 : ℤ).toNat ∧
    List.Pairwise (· < ·) (get_frequency_axis 0 1 2) ∧
    (get_frequency_axis 0 1 2).head? = some 0 ∧
    (get_frequency_axis 0 1 2).getLast? = some 1 ∧
    ∀ i : ℕ, i < (2 : ℤ).toNat →
      (get_frequency_axis 0 1 2).get? i =
        some (0 + (i : ℚ) * ((1 - 0) / (((2 : ℤ) : ℚ) - 1))) :=
  c1_frequency_axis 0 1 2 (by norm_num) (by norm_num)

/-- One unfolding step of the resolver when the head candidate succeeds. -/
theorem tryAnyGo_cons_ok {α : Type} (attempt : String → Except String α)
    {c : String} {a : α} (cs : List String) (last : Option String)
    (he : attempt c = Except.ok a) :
    tryAnyGo attempt (c :: cs) last = ([c], Except.ok a) := by
  simp [tryAnyGo, he]

/-- One unfolding step of the resolver when the head candidate fails. -/
theorem tryAnyGo_cons_error {α : Type} (attempt : String → Except String α)
    {c : String} {e : String} (cs : List String) (last : Option String)
    (he : attempt c = Except.error e) :
    tryAnyGo attempt (c :: cs) last =
      (c :: (tryAnyGo attempt cs (some e)).1, (tryAnyGo attempt cs (some e)).2) := by
  simp [tryAnyGo, he]

/-- Success case of the variant resolver: if candidate `k` is the first whose
attempt succeeds, exactly candidates `0..k` are attempted, in order, and the
call returns that success. -/
theorem tryAnyGo_ok {α : Type} (attempt : String → Except String α) :
    ∀ (cmds : List String) (last : Option String) (k : ℕ) (hk : k < cmds.length) (a : α),
      attempt (cmds.get ⟨k, hk⟩) = Except.ok a →
      (∀ (j : ℕ) (hj : j < cmds.length), j < k → ∀ b, attempt (cmds.get ⟨j, hj⟩) ≠ Except.ok b) →
      tryAnyGo attempt cmds last = (cmds.take (k + 1), Except.ok a)
  | [], _, k, hk, _ => by simp at hk
  | c :: cs, last, 0, hk, a => by
    intro hok _
    simp only [List.get] at hok
    simp [tryAnyGo, hok]
  | c :: cs, last, k + 1, hk, a => by
    intro hok hfirst
    have hcfail : ∀ b, attempt c ≠ Except.ok b := by
      intro b
      exact hfirst 0 (by simp) (Nat.succ_pos k) b
    obtain ⟨e, he⟩ : ∃ e, attempt c = Except.error e := by
      cases hatt : attempt c with
      | ok b => exact absurd hatt (hcfail b)
      | error e => exact ⟨e, rfl⟩
    have hk' : k < cs.length := by simpa using hk
    have hok' : attempt (cs.get ⟨k, hk'⟩) = Except.ok a := hok
    have hfirst' : ∀ (j : ℕ) (hj : j < cs.length), j < k → ∀ b,
        attempt (cs.get ⟨j, hj⟩) ≠ Except.ok b := by
      intro j hj hjk b
      exact hfirst (j + 1) (by simpa using hj) (by omega) b
    have ih := tryAnyGo_ok attempt cs (some e) k hk' a hok' hfirst'
    simp [tryAnyGo, he, ih]

/-- All-fail case of the variant resolver: every candidate is attempted, in
order, and the error finally raised is the one produced by the last
candidate. -/
theorem tryAnyGo_allfail {α : Type} (attempt : String → Except String α) :
    ∀ (cmds : List String) (last : Option String) (clast e : String),
      (∀ c ∈ cmds, ∃ er, attempt c = Except.error er) →
      cmds.getLast? = some clast → attempt clast = Except.error e →
      tryAnyGo attempt cmds last = (cmds, Except.error (some e))
  | [], _, clast, e => by
    intro _ hlast _
    simp at hlast
  | [c], last, clast, e => by
    intro hall hlast he
    have hc : clast = c := by simpa using hlast.symm
    subst hc
    simp [tryAnyGo, he]
  | c :: c2 :: cs, last, clast, e => by
    intro hall hlast he
    obtain ⟨er, her⟩ := hall c (by simp)
    have hlast' : (c2 :: cs).getLast? = some clast := by
      simpa [List.getLast?_cons_cons] using hlast
    have hall' : ∀ x ∈ c2 :: cs, ∃ er, attempt x = Except.error er := by
      intro x hx
      exact hall x (List.mem_cons_of_mem _ hx)
    have ih := tryAnyGo_allfail attempt (c2 :: cs) (some er) clast e hall' hlast' he
    rw [tryAnyGo_cons_error attempt _ _ her, ih]

/-- C2: `_try_write_any` / `_try_query_any` attempt the candidates strictly in
list order; the first success stops the loop (later candidates are never
attempted) and is returned; if every candidate fails, the error raised is the
one produced by the last candidate attempted. -/
theorem c2_try_any {α : Type} (attempt : String → Except String α) (cmds : List String) :
    (∀ (k : ℕ) (hk : k < cmds.length) (a : α),
      attempt (cmds.get ⟨k, hk⟩) = Except.ok a →
      (∀ (j : ℕ) (hj : j < cmds.length), j < k → ∀ b, attempt (cmds.get ⟨j, hj⟩) ≠ Except.ok b) →
      tryAnyCmds attempt cmds = (cmds.take (k + 1), Except.ok a)) ∧
    (∀ (clast e : String),
      (∀ c ∈ cmds, ∃ er, attempt c = Except.error er) →
      cmds.getLast? = some clast → attempt clast = Except.error e →
      tryAnyCmds attempt cmds = (cmds, Except.error (some e))) :=
  ⟨fun k hk a hok hfirst => tryAnyGo_ok attempt cmds none k hk a hok hfirst,
   fun clast e hall hlast he => tryAnyGo_allfail attempt cmds none clast e hall hlast he⟩

/-- Witness for C2: candidates `["A", "B", "C"]` where `A`, `B` fail and `C`
succeeds give trace `[A, B, C]` and success; when all three fail the raised
error is the one of `C`. -/
theorem c2_try_any_witness :
    tryAnyCmds (fun c => if c = "C" then Except.ok () else Except.error ("fail en " ++ c))
        ["A", "B", "C"] = (["A", "B", "C"].take 3, Except.ok ()) ∧
    tryAnyCmds (fun c => (Except.error ("fail en " ++ c) : Except String Unit))
        ["A", "B", "C"] = (["A", "B", "C"], Except.error (some "fail en C")) :=
  ⟨(c2_try_any (fun c => if c = "C" then Except.ok () else Except.error ("fail en " ++ c))
      ["A", "B", "C"]).1 2 (by decide) () (by simp)
      (by
        intro j hj hjk b
        interval_cases j <;> simp),
   (c2_try_any (fun c => (Except.error ("fail en " ++ c) : Except String Unit))
      ["A", "B", "C"]).2 "C" "fail en C" (fun c _ => ⟨"fail en " ++ c, rfl⟩)
      (by simp) rfl⟩

/-- The drain loop never performs more reads than its remaining budget. -/
theorem check_errors_go_length_le (replies : ℕ → String) :
    ∀ (n i : ℕ), (check_errors_go replies i n).length ≤ n
  | 0, _ => by simp [check_errors_go]
  | n + 1, i => by
    by_cases h : pyStartsWith (replies i) "0"
    · simp [check_errors_go, h]
    · simpa [check_errors_go, h] using check_errors_go_length_le replies n (i + 1)

/-- Unrolling a `map` over `range (m+1)` from the front. -/
theorem map_range_shift {α : Type} (g : ℕ → α) (m : ℕ) :
    (List.range (m + 1)).map g = g 0 :: (List.range m).map (fun t => g (t + 1)) := by
  rw [List.range_succ_eq_map, List.map_cons, List.map_map]
  rfl

/-- If the `(k+1)`-th reply (offset from `i`) is the first starting with `"0"`
and it is within the budget, the loop stops right after reading it. -/
theorem check_errors_go_stop (replies : ℕ → String) :
    ∀ (n i k : ℕ), k < n → (pyStartsWith (replies (i + k)) "0") →
      (∀ j, j < k → ¬ (pyStartsWith (replies (i + j)) "0")) →
      check_errors_go replies i n =
        (List.range (k + 1)).map (fun t => pyStrip (replies (i + t)))
  | 0, _, k => by omega
  | n + 1, i, 0 => by
    intro _ h0 _
    have h0' : pyStartsWith (replies i) "0" := by simpa using h0
    rw [map_range_shift]
    simp [check_errors_go, h0']
  | n + 1, i, k + 1 => by
    intro hk h0 hfirst
    have hne : ¬ pyStartsWith (replies i) "0" := by
      simpa using hfirst 0 (Nat.succ_pos k)
    have h0' : pyStartsWith (replies ((i + 1) + k)) "0" := by
      have : (i + 1) + k = i + (k + 1) := by omega
      rw [this]
      exact h0
    have hfirst' : ∀ j, j < k → ¬ (pyStartsWith (replies ((i + 1) + j)) "0") := by
      intro j hj
      have : (i + 1) + j = i + (j + 1) := by omega
      rw [this]
      exact hfirst (j + 1) (by omega)
    have ih := check_errors_go_stop replies n (i + 1) k (by omega) h0' hfirst'
    have hstep : check_errors_go replies i (n + 1) =
        pyStrip (replies i) :: check_errors_go replies (i + 1) n := by
      simp only [check_errors_go]
      rw [if_neg hne]
    rw [hstep, ih, show k + 1 + 1 = (k + 1) + 1 from rfl,
      map_range_shift (fun t => pyStrip (replies (i + t))) (k + 1)]
    congr 1
    apply List.map_congr_left
    intro a _
    have harg : i + 1 + a = i + (a + 1) := by omega
    rw [harg]

/-- If no reply within the budget starts with `"0"`, the loop runs the full
budget. -/
theorem check_errors_go_nostop (replies : ℕ → String) :
    ∀ (n i : ℕ), (∀ j, j < n → ¬ (pyStartsWith (replies (i + j)) "0")) →
      check_errors_go replies i n =
        (List.range n).map (fun t => pyStrip (replies (i + t)))
  | 0, i => by
    intro _
    simp [check_errors_go]
  | n + 1, i => by
    intro hno
    have hne : ¬ pyStartsWith (replies i) "0" := by
      simpa using hno 0 (Nat.succ_pos n)
    have hno' : ∀ j, j < n → ¬ (pyStartsWith (replies ((i + 1) + j)) "0") := by
      intro j hj
      have : (i + 1) + j = i + (j + 1) := by omega
      rw [this]
      exact hno (j + 1) (by omega)
    have ih := check_errors_go_nostop replies n (i + 1) hno'
    have hstep : check_errors_go replies i (n + 1) =
        pyStrip (replies i) :: check_errors_go replies (i + 1) n := by
      simp only [check_errors_go]
      rw [if_neg hne]
    rw [hstep, ih, map_range_shift (fun t => pyStrip (replies (i + t))) n]
    congr 1
    apply List.map_congr_left
    intro a _
    have harg : i + 1 + a = i + (a + 1) := by omega
    rw [harg]

/-- C3: the error-queue drain reads replies one at a time, stops right after
the first reply that starts with `"0"` (returning every stripped reply read so
far, that one included), otherwise stops after exactly `max_reads` reads; in
every case at most `max_reads` replies are read, so the loop terminates. -/
theorem c3_check_errors (replies : ℕ → String) (max_reads : ℕ) :
    (check_errors replies max_reads).length ≤ max_reads ∧
    (∀ k, k < max_reads → (pyStartsWith (replies k) "0") →
      (∀ j, j < k → ¬ (pyStartsWith (replies j) "0")) →
      check_errors replies max_reads =
        (List.range (k + 1)).map (fun i => pyStrip (replies i))) ∧
    ((∀ j, j < max_reads → ¬ (pyStartsWith (replies j) "0")) →
      check_errors replies max_reads =
        (List.range max_reads).map (fun i => pyStrip (replies i))) := by
  refine ⟨check_errors_go_length_le replies max_reads 0, ?_, ?_⟩
  · intro k hk h0 hfirst
    have := check_errors_go_stop replies max_reads 0 k hk (by simpa using h0)
      (by intro j hj; simpa using hfirst j hj)
    simpa using this
  · intro hno
    have := check_errors_go_nostop replies max_reads 0
      (by intro j hj; simpa using hno j hj)
    simpa using this

/-- Witness for C3: with the scripted replies `"1,err", "2,err", "0,No error",
"1,err", ...` and cap 20, the drain returns the first three stripped replies;
with an endless stream of nonzero codes it returns exactly 20 replies. -/
theorem c3_check_errors_witness :
    check_errors (fun i => if i = 2 then "0,No error" else "1,err") 20 =
      (List.range 3).map
        (fun i => pyStrip ((fun i => if i = 2 then "0,No error" else "1,err") i)) ∧
    check_errors (fun _ => "1,err") 20 =
      (List.range 20).map (fun i => pyStrip ((fun _ => "1,err") i)) :=
  ⟨(c3_check_errors (fun i => if i = 2 then "0,No error" else "1,err") 20).2.1 2
      (by decide) (by decide)
      (by
        intro j hj
        interval_cases j <;> decide),
   (c3_check_errors (fun _ => "1,err") 20).2.2
      (by
        intro j _
        decide)⟩

/-- C4: on the raw reply `"-10.5,-20.1,,abc,-5.0"` the first parse stage of
`fetch_trace` splits on comma (after newline/semicolon replacement), skips the
empty and unparseable tokens, and returns exactly `[-10.5, -20.1, -5.0]` in
order. -/
theorem c4_fetch_trace_parse :
    fetch_trace_parse1 "-10.5,-20.1,,abc,-5.0" = [-10.5, -20.1, -5.0] := by
  have h : fetch_trace_parse1 "-10.5,-20.1,,abc,-5.0" =
      [mkRat (-105) 10, mkRat (-201) 10, mkRat (-50) 10] := by decide
  rw [h]
  norm_num [Rat.mkRat_eq_div]

/-- A comprehension-style `float` map raises as soon as any member token is
rejected. -/
theorem floatMapStrict_none_of_mem :
    ∀ (xs : List (List Char)) (x : List Char), x ∈ xs → parsePyFloat? ⟨x⟩ = none →
      floatMapStrict xs = none
  | [], x => by simp
  | a :: as, x => by
    intro hmem hnone
    rcases List.mem_cons.mp hmem with h | h
    · subst h
      simp [floatMapStrict, hnone]
    · have ih := floatMapStrict_none_of_mem as x h hnone
      cases ha : parsePyFloat? ⟨a⟩ with
      | none => simp [floatMapStrict, ha]
      | some v => simp [floatMapStrict, ha, ih]

/-- C10: on the `fetch_trace` retry path the reparse is stricter than the
first parse: tokens are produced by replacing newlines with commas and
splitting on commas only (semicolons are not separators), and a kept
(non-blank) token that `float` rejects raises instead of being skipped —
whereas the first parse splits the same text at the semicolon and produces
both numbers. -/
theorem c10_fetch_trace_retry_parse :
    (∀ (s : String) (x : List Char),
      x ∈ splitOnChar ',' (replaceChar '\n' ',' s.data) →
      (pyStripList x).isEmpty = false →
      parsePyFloat? ⟨x⟩ = none →
      fetch_trace_parse2 s = none) ∧
    fetch_trace_parse2 "-10.5;-20.1" = none ∧
    fetch_trace_parse1 "-10.5;-20.1" = [-10.5, -20.1] := by
  refine ⟨?_, ?_, ?_⟩
  · intro s x hmem hne hnone
    have hmem' : x ∈ (splitOnChar ',' (replaceChar '\n' ',' s.data)).filter
        (fun x => !(pyStripList x).isEmpty) := by
      refine List.mem_filter.mpr ⟨hmem, ?_⟩
      simp [hne]
    exact floatMapStrict_none_of_mem _ x hmem' hnone
  · decide
  · have h : fetch_trace_parse1 "-10.5;-20.1" = [mkRat (-105) 10, mkRat (-201) 10] := by
      decide
    rw [h]
    norm_num [Rat.mkRat_eq_div]

/-- Witness for C10: the token `"abc"` of the reply `"-10.5,abc"` is kept by
the retry filter, `float` rejects it, and the whole retry parse raises. -/
theorem c10_fetch_trace_retry_parse_witness :
    fetch_trace_parse2 "-10.5,abc" = none :=
  c10_fetch_trace_retry_parse.1 "-10.5,abc" "abc".data (by decide) (by decide) (by decide)

/-- Every element of a query-tagged trace is a query event. -/
theorem mem_map_qu {l : List String} {ev : Vevent} (h : ev ∈ l.map Vevent.qu) :
    ∃ c, ev = Vevent.qu c := by
  obtain ⟨c, _, rfl⟩ := List.mem_map.mp h
  exact ⟨c, rfl⟩

/-- The I/O trace of `get_start_stop` consists of queries only: the span
read-back writes nothing. -/
theorem sa_get_start_stop_trace (d : Device) :
    ∀ ev ∈ (sa_get_start_stop d).1, ∃ c, ev = Vevent.qu c := by
  intro ev hev
  dsimp only [sa_get_start_stop, tryQueryAnyT] at hev
  repeat' split at hev
  all_goals try exact mem_map_qu hev
  all_goals rcases List.mem_append.mp hev with h | h <;> exact mem_map_qu h

/-- C5 counterexample: `set_marker_x` must read the current span before it
can validate, so even a rejected call performs I/O: with a device whose span
reads back as `[1.0, 2.0]`, `set_marker_x(1, 5)` raises the `ValueError` but
its I/O trace holds the two span queries — the claim's "no query is issued"
part fails on the code. -/
theorem c5_counterexample :
    sa_set_marker_x
        ⟨fun _ => Except.ok (),
         fun c => if c = "FREQ:STAR?" then Except.ok "1.0"
           else if c = "FREQ:STOP?" then Except.ok "2.0"
           else Except.error "query failed"⟩ 1 5 =
      ([Vevent.qu "FREQ:STAR?", Vevent.qu "FREQ:STOP?"],
       Except.error "ValueError: Frecuencia fuera de span") ∧
    ([Vevent.qu "FREQ:STAR?", Vevent.qu "FREQ:STOP?"] : List Vevent) ≠ [] := by
  decide

/-- C5 (amended): when the span read-back succeeds and the frequency lies
outside `[f_start, f_stop]`, both `set_marker_x` implementations raise a
`ValueError` and write no command — the only I/O on the rejection path is
the span read-back's queries, which precede the check. -/
theorem c5_set_marker_x_validation :
    (∀ (d : Device) (idx : ℤ) (freq : ℚ) (t : List Vevent) (f_start f_stop : ℚ),
      sa_get_start_stop d = (t, Except.ok (f_start, f_stop)) →
      ¬ (f_start ≤ freq ∧ freq ≤ f_stop) →
      sa_set_marker_x d idx freq =
          (t, Except.error "ValueError: Frecuencia fuera de span") ∧
        ∀ ev ∈ t, ∃ c, ev = Vevent.qu c) ∧
    (∀ (d : Device) (idx : ℤ) (freq : ℚ) (s1 s2 : String) (f_start f_stop : ℚ),
      d.queryR "SENS:FREQ:STAR?" = Except.ok s1 → floatE s1 = Except.ok f_start →
      d.queryR "SENS:FREQ:STOP?" = Except.ok s2 → floatE s2 = Except.ok f_stop →
      ¬ (f_start ≤ freq ∧ freq ≤ f_stop) →
      vna_set_marker_x d idx freq =
        ([Vevent.qu "SENS:FREQ:STAR?", Vevent.qu "SENS:FREQ:STOP?"],
         Except.error "ValueError: Frecuencia fuera del sweep")) := by
  constructor
  · intro d idx freq t f_start f_stop hg hout
    constructor
    · simp [sa_set_marker_x, hg, hout]
    · intro ev hev
      exact sa_get_start_stop_trace d ev (by rw [hg] at *; exact hev)
  · intro d idx freq s1 s2 f_start f_stop hq1 hf1 hq2 hf2 hout
    simp [vna_set_marker_x, hq1, hf1, hq2, hf2, hout]

/-- Witness for C5's amended statement, on both drivers, with span `[1, 2]`
and the out-of-range frequency `5`. -/
theorem c5_set_marker_x_validation_witness :
    (sa_set_marker_x
        ⟨fun _ => Except.ok (),
         fun c => if c = "FREQ:STAR?" then Except.ok "1.0"
           else if c = "FREQ:STOP?" then Except.ok "2.0"
           else Except.error "query failed"⟩ 2 5 =
        ([Vevent.qu "FREQ:STAR?", Vevent.qu "FREQ:STOP?"],
         Except.error "ValueError: Frecuencia fuera de span") ∧
      ∀ ev ∈ ([Vevent.qu "FREQ:STAR?", Vevent.qu "FREQ:STOP?"] : List Vevent),
        ∃ c, ev = Vevent.qu c) ∧
    vna_set_marker_x
        ⟨fun _ => Except.ok (),
         fun c => if c = "SENS:FREQ:STAR?" then Except.ok "1.0"
           else if c = "SENS:FREQ:STOP?" then Except.ok "2.0"
           else Except.error "query failed"⟩ 2 5 =
      ([Vevent.qu "SENS:FREQ:STAR?", Vevent.qu "SENS:FREQ:STOP?"],
       Except.error "ValueError: Frecuencia fuera del sweep") :=
  ⟨c5_set_marker_x_validation.1
      ⟨fun _ => Except.ok (),
       fun c => if c = "FREQ:STAR?" then Except.ok "1.0"
         else if c = "FREQ:STOP?" then Except.ok "2.0"
         else Except.error "query failed"⟩ 2 5
      [Vevent.qu "FREQ:STAR?", Vevent.qu "FREQ:STOP?"] 1 2 (by decide) (by decide),
   c5_set_marker_x_validation.2
      ⟨fun _ => Except.ok (),
       fun c => if c = "SENS:FREQ:STAR?" then Except.ok "1.0"
         else if c = "SENS:FREQ:STOP?" then Except.ok "2.0"
         else Except.error "query failed"⟩ 2 5 "1.0" "2.0" 1 2
      (by decide) (by decide) (by decide) (by decide) (by decide)⟩

/-- C6: with `stop ≤ start` both span setters raise the `ValueError` with an
empty I/O trace: no command reaches the instrument, so its sweep
configuration is untouched on the error path. -/
theorem c6_set_span_validation (d : Device) (start stop : ℚ) (points : ℤ)
    (h : stop ≤ start) :
    sa_set_span d start stop points =
      ([], Except.error "ValueError: stop_hz debe ser mayor que start_hz") ∧
    vna_set_span d start stop points =
      ([], Except.error "ValueError: Stop frequency must be greater than start frequency") := by
  constructor
  · simp [sa_set_span, h]
  · simp [vna_set_span, h]

/-- Witness for C6 at `start = 1`, `stop = 0`. -/
theorem c6_set_span_validation_witness :
    sa_set_span ⟨fun _ => Except.ok (), fun _ => Except.ok ""⟩ 1 0 1001 =
      ([], Except.error "ValueError: stop_hz debe ser mayor que start_hz") ∧
    vna_set_span ⟨fun _ => Except.ok (), fun _ => Except.ok ""⟩ 1 0 1001 =
      ([], Except.error "ValueError: Stop frequency must be greater than start frequency") :=
  c6_set_span_validation ⟨fun _ => Except.ok (), fun _ => Except.ok ""⟩ 1 0 1001 (by norm_num)

/-- C9: `get_delta_reading` returns the direct delta reading when the direct
attempt succeeds (the fallback is not entered: the trace is the direct
attempt's alone), and falls back if and only if that attempt fails, in which
case it returns exactly `(x2 - x1, y2 - y1)` from the reference marker's
reading `(x1, y1)` and the delta marker's reading `(x2, y2)`. -/
theorem c9_get_delta_reading (d : Device) (ref_idx del_idx : ℤ) :
    (∀ (t : List Vevent) (p : ℚ × ℚ),
      sa_delta_direct d del_idx = (t, Except.ok p) →
      sa_get_delta_reading d ref_idx del_idx = (t, Except.ok p)) ∧
    (∀ (t t1 t2 : List Vevent) (e : String) (x1 y1 x2 y2 : ℚ),
      sa_delta_direct d del_idx = (t, Except.error e) →
      sa_get_marker_xy d ref_idx = (t1, Except.ok (x1, y1)) →
      sa_get_marker_xy d del_idx = (t2, Except.ok (x2, y2)) →
      sa_get_delta_reading d ref_idx del_idx =
        (t ++ t1 ++ t2, Except.ok (x2 - x1, y2 - y1))) := by
  constructor
  · intro t p h
    simp [sa_get_delta_reading, h]
  · intro t t1 t2 e x1 y1 x2 y2 hd h1 h2
    simp [sa_get_delta_reading, hd, h1, h2]

/-- Witness for C9: a device with a working direct delta reading returns it
with no fallback I/O; a device without one (but with per-marker readings
`(1, 2)` and `(4, 7)`) returns the subtraction `(4 - 1, 7 - 2)`. -/
theorem c9_get_delta_reading_witness :
    sa_get_delta_reading
        ⟨fun _ => Except.ok (),
         fun c => if c = "CALC:MARK2:DELT:X?" then Except.ok "5.0"
           else if c = "CALC:MARK2:DELT:Y?" then Except.ok "0.5"
           else Except.error "no such query"⟩ 1 2 =
      ([Vevent.qu "CALC:MARK2:DELT:X?", Vevent.qu "CALC:MARK2:DELT:Y?"],
       Except.ok (mkRat 50 10, mkRat 5 10)) ∧
    sa_get_delta_reading
        ⟨fun _ => Except.ok (),
         fun c => if c = "CALC:MARK1:X?" then Except.ok "1.0"
           else if c = "CALC:MARK1:Y?" then Except.ok "2.0"
           else if c = "CALC:MARK2:X?" then Except.ok "4.0"
           else if c = "CALC:MARK2:Y?" then Except.ok "7.0"
           else Except.error "no such query"⟩ 1 2 =
      ([Vevent.qu "CALC:MARK2:DELT:X?", Vevent.qu "CALC:MARKER2:DELTA:X?"]
          ++ [Vevent.qu "CALC:MARK1:X?", Vevent.qu "CALC:MARK1:Y?"]
          ++ [Vevent.qu "CALC:MARK2:X?", Vevent.qu "CALC:MARK2:Y?"],
       Except.ok (mkRat 40 10 - mkRat 10 10, mkRat 70 10 - mkRat 20 10)) :=
  ⟨(c9_get_delta_reading
      ⟨fun _ => Except.ok (),
       fun c => if c = "CALC:MARK2:DELT:X?" then Except.ok "5.0"
         else if c = "CALC:MARK2:DELT:Y?" then Except.ok "0.5"
         else Except.error "no such query"⟩ 1 2).1
      [Vevent.qu "CALC:MARK2:DELT:X?", Vevent.qu "CALC:MARK2:DELT:Y?"]
      (mkRat 50 10, mkRat 5 10) (by decide),
   (c9_get_delta_reading
      ⟨fun _ => Except.ok (),
       fun c => if c = "CALC:MARK1:X?" then Except.ok "1.0"
         else if c = "CALC:MARK1:Y?" then Except.ok "2.0"
         else if c = "CALC:MARK2:X?" then Except.ok "4.0"
         else if c = "CALC:MARK2:Y?" then Except.ok "7.0"
         else Except.error "no such query"⟩ 1 2).2
      [Vevent.qu "CALC:MARK2:DELT:X?", Vevent.qu "CALC:MARKER2:DELTA:X?"]
      [Vevent.qu "CALC:MARK1:X?", Vevent.qu "CALC:MARK1:Y?"]
      [Vevent.qu "CALC:MARK2:X?", Vevent.qu "CALC:MARK2:Y?"]
      "no such query" (mkRat 10 10) (mkRat 20 10) (mkRat 40 10) (mkRat 70 10)
      (by decide) (by decide) (by decide)⟩

/-- C7 counterexample: with amplitude `0.0005` (below the `0.001` minimum)
`set_sin` raises no validation error: it clamps the amplitude to `0.001`,
prints a notice, and still writes the sine command — I/O is performed, so
the out-of-range amplitude is not rejected before I/O. -/
theorem c7_counterexample :
    awg_set_sin 1 1000 (mkRat 5 10000) 0 0 =
      ([AwgCmd.applSin 1 1000 (mkRat 1 1000) 0],
       ["Amplitude below minimum (0.001). Setting it to 0.001."]) ∧
    (awg_set_sin 1 1000 (mkRat 5 10000) 0 0).1 ≠ [] := by
  decide

/-- C7 (amended): for every amplitude below `0.001` V, `set_sin` clamps it to
`0.001`, prints the clamp notice, and writes the sine command (plus the phase
command when the phase is nonzero); it raises nothing and I/O is performed. -/
theorem c7_set_sin_clamps (channel : ℤ) (frequency amplitude offset phase : ℚ)
    (h : amplitude < mkRat 1 1000) :
    awg_set_sin channel frequency amplitude offset phase =
      ([AwgCmd.applSin channel frequency (mkRat 1 1000) offset]
        ++ (if phase ≠ 0 then [AwgCmd.phas channel phase] else []),
       ["Amplitude below minimum (0.001). Setting it to 0.001."]) ∧
    (awg_set_sin channel frequency amplitude offset phase).1 ≠ [] := by
  constructor
  · simp [awg_set_sin, h]
  · simp [awg_set_sin]

/-- Witness for C7's amended statement at amplitude `0.0005` and phase 90. -/
theorem c7_set_sin_clamps_witness :
    (awg_set_sin 2 500 (mkRat 5 10000) 0 90 =
      ([AwgCmd.applSin 2 500 (mkRat 1 1000) 0]
        ++ (if (90 : ℚ) ≠ 0 then [AwgCmd.phas 2 90] else []),
       ["Amplitude below minimum (0.001). Setting it to 0.001."])) ∧
    (awg_set_sin 2 500 (mkRat 5 10000) 0 90).1 ≠ [] :=
  c7_set_sin_clamps 2 500 (mkRat 5 10000) 0 90 (by decide)

/-- C8 counterexample: on an already-closed handle every `close()` raises —
`AnaPico_sin20G.close` and `AWG_Rigol_DG922Pro.close` hit the closed session
with their output-disable writes, and `SpectrumAnalyzer.close` guards only
the resource-manager close, not the session close. -/
theorem c8_counterexample :
    anapico_close true = ([], Except.error "InvalidSession") ∧
    awg_close true = ([], Except.error "InvalidSession") ∧
    sa_close true = Except.error "InvalidSession" := by
  decide

/-- C8 (amended): on an open handle, `close()` first disables the outputs
where applicable (`:OUTP OFF`; both channels for the AWG) and then releases
the handle, succeeding; but none of the `close()` implementations is
idempotent-safe — on an already-closed handle the underlying `InvalidSession`
propagates. -/
theorem c8_close_behaviour :
    (anapico_close false = ([":OUTP OFF"], Except.ok true)) ∧
    (awg_close false = ([":OUTP1 OFF", ":OUTP2 OFF"], Except.ok true)) ∧
    (sa_close false = Except.ok true) ∧
    (anapico_close true = ([], Except.error "InvalidSession")) ∧
    (awg_close true = ([], Except.error "InvalidSession")) ∧
    (sa_close true = Except.error "InvalidSession") := by
  decide
